import Mathlib

/-!
Verification of the tournament orchestration engine.

Shallow embedding of the decision logic of two scripts:
- `run_elimination_tournament.py` (namespace `Elim`): seeded single-elimination
  bracket construction, match resolution with tiebreak escalation, parallel
  round scheduling, port assignment, log parsing.
- `run_tournament.py` (namespace `Tourn`): the group-stage runner, in
  particular its `parse_game_result` and the per-board score aggregation.

Python floats are modelled as rationals, absent values as `Option`, process
side effects as explicit action traces over an environment, and the results
of the two regular-expression probes of a log file as oracle fields carried
alongside the raw log text (plain substring probes are computed from the
text itself).
-/

namespace Spec2Proof

/-- Base port for parallel execution (run_elimination_tournament.py line 30). -/
def BASE_PORT : Nat := 9600

/-- One row of the seeds CSV (`load_seeds`): seed rank, group, player name and
qualifying statistics. -/
structure Participant where
  seed : Nat
  player : String
  group : String
  wins : Nat
  total_score : Rat
deriving DecidableEq

/-- Default used for out-of-range list reads; never reached by in-range reads. -/
def defaultParticipant : Participant :=
  { seed := 0, player := "", group := "", wins := 0, total_score := 0 }

/-- A CSV result cell: a number, or the empty string written for a score that
is `None` (`results[...] = x if x is not None else ""`). -/
inductive CsvCell where
  | num (v : Rat)
  | empty
deriving DecidableEq

/-- Embedding of `x if x is not None else ""` for a score cell. -/
def scoreCell : Option Rat → CsvCell
  | some v => CsvCell.num v
  | none => CsvCell.empty

/-- Boolean substring test, embedding the Python `pattern in content` check. -/
def containsStr (s pat : String) : Bool := decide (pat.toList <:+: s.toList)

/-- Embedding of the winner-by-score-comparison expression
`"circle" if c > s else "square" if s > c else "draw"`. -/
def scoreWinner (c s : Rat) : String :=
  if c > s then "circle" else if s > c then "square" else "draw"

namespace Elim

/-- Result of the two regular-expression probes run by
`run_elimination_tournament.parse_game_result` on one log file: the
`Final Scores - Circle: x, Square: y` capture and the `Winner: w` capture
(the captured word, before `.lower()`). -/
structure LogFeed where
  score_match : Option (Rat × Rat)
  winner_match : Option String
deriving DecidableEq

/-- The loop of `parse_game_result` (lines 257-272): per log, a score line
decides winner and both scores and breaks; otherwise a winner marker only
updates the winner and the loop continues with the next log. -/
def parse_loop : List LogFeed → Option String → Option String × Option Rat × Option Rat
  | [], w => (w, none, none)
  | l :: rest, w =>
    match l.score_match with
    | some (c, s) => (some (scoreWinner c s), some c, some s)
    | none =>
      match l.winner_match with
      | some wm => parse_loop rest (some wm.toLower)
      | none => parse_loop rest w

/-- The 4-tuple returned by `parse_game_result`. -/
structure ParseResult where
  winner : Option String
  circle_score : Option Rat
  square_score : Option Rat
  error : Option String
deriving DecidableEq

/-- Embedding of `run_elimination_tournament.parse_game_result`
(lines 245-275), over the list of logs that exist (server log first). -/
def parse_game_result (logs : List LogFeed) : ParseResult :=
  let r := parse_loop logs none
  { winner := r.1
    circle_score := r.2.1
    square_score := r.2.2
    error := if r.1.isSome then none else some "No result found" }

/-- One parsed game: the winner string and the two role scores. -/
structure GameRes where
  winner : Option String
  circle_score : Option Rat
  square_score : Option Rat
deriving DecidableEq

/-- Outcomes of the up to six games a match can require: the two regular
role-swapped games, the two tiebreaker-battle-1 games and the two
tiebreaker-battle-2 games (tiebreak outcomes are consulted only when the
corresponding stage is reached). -/
structure MatchGames where
  g1 : GameRes
  g2 : GameRes
  tb1g1 : GameRes
  tb1g2 : GameRes
  tb2g1 : GameRes
  tb2g2 : GameRes
deriving DecidableEq

/-- Player-1 win count over a role-swapped game pair: game 1 has player1 as
circle, game 2 has player1 as square (lines 444-452 and the analogous
tiebreaker counting). -/
def p1_wins_of (w1 w2 : Option String) : Nat :=
  (if w1 = some "circle" then 1 else 0) + (if w2 = some "square" then 1 else 0)

/-- Player-2 win count over a role-swapped game pair. -/
def p2_wins_of (w1 w2 : Option String) : Nat :=
  (if w1 = some "square" then 1 else 0) + (if w2 = some "circle" then 1 else 0)

/-- The fields of the `results` row relevant to match resolution, plus
`extra_games`, the number of `run_game` calls made beyond the two regular
games (0 when the regular games decide, 2 when tiebreaker battle 1 decides,
4 otherwise). -/
structure MatchRecord where
  match_winner : Participant
  tiebreaker : Option String
  extra_games : Nat
  p1_total_score : Rat
  p2_total_score : Rat
  game1_p1_cell : CsvCell
  game1_p2_cell : CsvCell
  game2_p1_cell : CsvCell
  game2_p2_cell : CsvCell
  tb1_p1_score : Option Rat
  tb1_p2_score : Option Rat
  tb2_p1_score : Option Rat
  tb2_p2_score : Option Rat
deriving DecidableEq

/-- Embedding of the match-resolution part of
`run_elimination_tournament.run_match` (lines 399-607): regular win counting,
total-score accumulation (`+=` only when the score is not None, equivalent to
adding a default of 0), the tiebreaker escalation, and the seed fallback.
Tiebreaker aggregate scores embed `(x or 0) + (y or 0)` (lines 517-518 and
566-567), which is `Option.getD 0` on each operand since `0.0 or 0` is `0`. -/
def run_match (player1 player2 : Participant) (g : MatchGames) : MatchRecord :=
  let p1_wins := p1_wins_of g.g1.winner g.g2.winner
  let p2_wins := p2_wins_of g.g1.winner g.g2.winner
  let base : MatchRecord :=
    { match_winner := player1
      tiebreaker := none
      extra_games := 0
      p1_total_score := g.g1.circle_score.getD 0 + g.g2.square_score.getD 0
      p2_total_score := g.g1.square_score.getD 0 + g.g2.circle_score.getD 0
      game1_p1_cell := scoreCell g.g1.circle_score
      game1_p2_cell := scoreCell g.g1.square_score
      game2_p1_cell := scoreCell g.g2.square_score
      game2_p2_cell := scoreCell g.g2.circle_score
      tb1_p1_score := none
      tb1_p2_score := none
      tb2_p1_score := none
      tb2_p2_score := none }
  if p1_wins > p2_wins then
    { base with match_winner := player1 }
  else if p2_wins > p1_wins then
    { base with match_winner := player2 }
  else
    let tb1 :=
      { base with
        tb1_p1_score := some (g.tb1g1.circle_score.getD 0 + g.tb1g2.square_score.getD 0)
        tb1_p2_score := some (g.tb1g1.square_score.getD 0 + g.tb1g2.circle_score.getD 0) }
    let tb1_p1_wins := p1_wins_of g.tb1g1.winner g.tb1g2.winner
    let tb1_p2_wins := p2_wins_of g.tb1g1.winner g.tb1g2.winner
    if tb1_p1_wins > tb1_p2_wins then
      { tb1 with
        match_winner := player1
        tiebreaker := some "tiebreaker_battle_1"
        extra_games := 2 }
    else if tb1_p2_wins > tb1_p1_wins then
      { tb1 with
        match_winner := player2
        tiebreaker := some "tiebreaker_battle_1"
        extra_games := 2 }
    else
      let tb2 :=
        { tb1 with
          tb2_p1_score := some (g.tb2g1.circle_score.getD 0 + g.tb2g2.square_score.getD 0)
          tb2_p2_score := some (g.tb2g1.square_score.getD 0 + g.tb2g2.circle_score.getD 0) }
      let tb2_p1_wins := p1_wins_of g.tb2g1.winner g.tb2g2.winner
      let tb2_p2_wins := p2_wins_of g.tb2g1.winner g.tb2g2.winner
      if tb2_p1_wins > tb2_p2_wins then
        { tb2 with
          match_winner := player1
          tiebreaker := some "tiebreaker_battle_2"
          extra_games := 4 }
      else if tb2_p2_wins > tb2_p1_wins then
        { tb2 with
          match_winner := player2
          tiebreaker := some "tiebreaker_battle_2"
          extra_games := 4 }
      else if player1.seed < player2.seed then
        { tb2 with
          match_winner := player1
          tiebreaker := some "group_stage_seed"
          extra_games := 4 }
      else
        { tb2 with
          match_winner := player2
          tiebreaker := some "group_stage_seed"
          extra_games := 4 }

/-- The sequence of per-game winner outcomes a match run can observe. -/
def winners_of (g : MatchGames) :
    Option String × Option String × Option String × Option String ×
      Option String × Option String :=
  (g.g1.winner, g.g2.winner, g.tb1g1.winner, g.tb1g2.winner, g.tb2g1.winner, g.tb2g2.winner)

/-- Win counts equal after the two regular games. -/
abbrev regular_tied (g : MatchGames) : Prop :=
  p1_wins_of g.g1.winner g.g2.winner = p2_wins_of g.g1.winner g.g2.winner

/-- Win counts equal after the tiebreaker-battle-1 games. -/
abbrev tb1_tied (g : MatchGames) : Prop :=
  p1_wins_of g.tb1g1.winner g.tb1g2.winner = p2_wins_of g.tb1g1.winner g.tb1g2.winner

/-- Win counts equal after the tiebreaker-battle-2 games. -/
abbrev tb2_tied (g : MatchGames) : Prop :=
  p1_wins_of g.tb2g1.winner g.tb2g2.winner = p2_wins_of g.tb2g1.winner g.tb2g2.winner

end Elim

/-- A match slot of the bracket dict: `match_id`, `player1`, `player2`. -/
structure BracketMatch where
  match_id : Nat
  player1 : Participant
  player2 : Participant
deriving DecidableEq

/-- Default used for out-of-range list reads of bracket matches. -/
def defaultBracketMatch : BracketMatch :=
  { match_id := 0, player1 := defaultParticipant, player2 := defaultParticipant }

/-- Embedding of `EliminationTournament.create_bracket` (lines 97-119): for
`i in range(num_seeds // 2)` pair `seeds[i]` against `seeds[num_seeds-1-i]`
with `match_id = i + 1`. -/
def create_bracket (seeds : List Participant) : List BracketMatch :=
  (List.range (seeds.length / 2)).map (fun i =>
    { match_id := i + 1
      player1 := seeds.getD i defaultParticipant
      player2 := seeds.getD (seeds.length - 1 - i) defaultParticipant })

/-- All participant slots filled across the round-1 matches, in match order. -/
def bracket_participants (seeds : List Participant) : List Participant :=
  (create_bracket seeds).flatMap (fun m => [m.player1, m.player2])

/-- Embedding of `run_round_parallel` (lines 609-634): `pool.map` applies the
match runner to the matches in input order and returns the results in input
order; winners and result rows are then projected out positionally. Each match
is paired with the game outcomes its execution produces. -/
def run_round_parallel
    (ms : List ((Participant × Participant) × Elim.MatchGames)) :
    List Participant × List Elim.MatchRecord :=
  let results := ms.map (fun x => Elim.run_match x.1.1 x.1.2 x.2)
  (results.map (fun r => r.match_winner), results)

/-- Embedding of the next-round pairing comprehension in `run_tournament`
(lines 674-677 and analogous): winners at positions (0,1), (2,3), ... become
the next round matches, in that order. -/
def advance_pairs : List Participant → List (Participant × Participant)
  | p1 :: p2 :: rest => (p1, p2) :: advance_pairs rest
  | _ => []

/-- Embedding of `get_next_port` (lines 75-80): under the port lock, return
the counter and increment it. -/
def get_next_port (next_port : Nat) : Nat × Nat := (next_port, next_port + 1)

/-- Ports produced by n successive `get_next_port` allocations starting from a
counter value. -/
def alloc_ports : Nat → Nat → List Nat
  | _, 0 => []
  | s, n + 1 =>
    let r := get_next_port s
    r.1 :: alloc_ports r.2 n

/-- Embedding of the port assignment of `run_round_parallel` (lines 616-621):
`for i, match in enumerate(matches, 1): port = BASE_PORT + i - 1`. -/
def round_ports (m : Nat) : List Nat :=
  (List.range m).map (fun k => BASE_PORT + (k + 1) - 1)

/-- Port lists handed out round by round by `run_tournament` (lines 664-717)
for the 32-seed bracket: round of 32 (16 matches), round of 16 (8),
quarterfinals (4), semifinals (2), and the final run on `BASE_PORT`. -/
def tournament_round_ports : List (List Nat) :=
  [round_ports 16, round_ports 8, round_ports 4, round_ports 2, [BASE_PORT]]

/-- Observable steps of one `run_game` execution. The constructors
`serverStartFailure` and `abortGame` exist to express transitions the
specification mentions; the embedded traces show whether they can occur. -/
inductive GAction where
  | launchServer
  | settleWait
  | launchPlayer1
  | launchPlayer2
  | connectWait
  | startWatchdog
  | teardown
  | parseLogs
  | serverStartFailure
  | abortGame
deriving DecidableEq

/-- Environment of one elimination-tournament `run_game` execution:
whether `server_proc.poll()` would still report the server alive after the
2-second settle delay, and at which watchdog polls the server has exited. -/
structure GameEnv where
  server_alive_after_settle : Bool
  server_exited : Nat → Bool

/-- Bounded poll loop: true when the exit condition is observed within the
given number of polls (the `while time.time() - start < timeout` pattern). -/
def poll_loop (cond : Nat → Bool) : Nat → Nat → Bool
  | 0, _ => false
  | fuel + 1, t => if cond t then true else poll_loop cond fuel (t + 1)

namespace Elim

/-- Embedding of the control flow of `run_elimination_tournament.run_game`
(lines 277-364): launch server, `time.sleep(2)`, launch player1, launch
player2, watchdog loop, teardown, parse. The source contains no liveness
check on the server process between the settle delay and the player
launches, so the trace does not depend on the environment. -/
def run_game_actions (_env : GameEnv) : List GAction :=
  [GAction.launchServer, GAction.settleWait, GAction.launchPlayer1,
   GAction.launchPlayer2, GAction.startWatchdog, GAction.teardown,
   GAction.parseLogs]

/-- The watchdog loop of lines 332-337: 300 seconds polled every 2 seconds,
true when the server process exits within the budget. -/
def watchdog_natural_exit (env : GameEnv) : Bool :=
  poll_loop env.server_exited 150 0

end Elim

namespace Tourn

/-- One log file of the group-stage runner: the raw text plus the results of
the two regular-expression probes of `run_tournament.parse_game_result`
(the `Final Scores` capture and the `Winner:` capture) and of its
error-pattern scan (lines 335-362), whose first matching line, truncated to
200 characters, is carried as an oracle. -/
structure TLog where
  text : String
  score_match : Option (Rat × Rat)
  winner_match : Option String
  error_sig : Option String
deriving DecidableEq

/-- Embedding of `'Timeout' in content or 'timeout' in content or 'TIMEOUT' in content`. -/
def has_timeout (t : String) : Bool :=
  containsStr t "Timeout" || containsStr t "timeout" || containsStr t "TIMEOUT"

/-- Embedding of `'REPETITION DETECTED' in content or 'repetition' in content.lower()`. -/
def has_repetition (t : String) : Bool :=
  containsStr t "REPETITION DETECTED" || containsStr t.toLower "repetition"

/-- Embedding of `'INVALID MOVE' in content or 'invalid move' in content.lower()`. -/
def has_invalid_move (t : String) : Bool :=
  containsStr t "INVALID MOVE" || containsStr t.toLower "invalid move"

/-- Embedding of `'INVALID MOVE by circle' in content`. -/
def invalid_by_circle (t : String) : Bool := containsStr t "INVALID MOVE by circle"

/-- Embedding of `'INVALID MOVE by square' in content`. -/
def invalid_by_square (t : String) : Bool := containsStr t "INVALID MOVE by square"

/-- Embedding of the turn-limit marker test (line 301). -/
def has_turn_limit (t : String) : Bool :=
  containsStr t "Turn limit" || containsStr t.toLower "turn limit" ||
    containsStr t "1000 total turns"

/-- Embedding of the completion marker test (line 311). -/
def has_finished (t : String) : Bool :=
  containsStr t "Game finished" || containsStr t "Game Over" || containsStr t "Winner:"

/-- Embedding of the last-resort completion test (line 378). -/
def has_bot_finished (t : String) : Bool :=
  containsStr t "✅ Bot finished" || containsStr t "Game finished"

/-- Mutable state threaded through the detection loop of
`run_tournament.parse_game_result`. -/
structure PState where
  winner : Option String
  circle_score : Option Rat
  square_score : Option Rat
  termination_reason : Option String
deriving DecidableEq

/-- Completion-marker block, lines 310-326; second component true means the
Python `break` fires. -/
def step5 (l : TLog) (st : PState) : PState × Bool :=
  if has_finished l.text then
    let st :=
      if st.winner = none then
        match l.winner_match with
        | some w => { st with winner := some w.toLower }
        | none => st
      else st
    match l.score_match with
    | some (c, s) =>
      let st := { st with circle_score := some c, square_score := some s }
      let st := if st.winner = none then { st with winner := some (scoreWinner c s) } else st
      let st :=
        { st with
          termination_reason := some (
            match st.winner with
            | some w => if w = "draw" then "Normal (completed)" else "Normal (win condition met)"
            | none => "Normal (completed)") }
      (st, true)
    | none => (st, false)
  else (st, false)

/-- Turn-limit block, lines 300-308. -/
def step4 (l : TLog) (st : PState) : PState × Bool :=
  if has_turn_limit l.text then
    let st := { st with termination_reason := some "Turn limit (1000 turns)" }
    match l.score_match with
    | some (c, s) =>
      ({ st with
         circle_score := some c
         square_score := some s
         winner := some (scoreWinner c s) }, true)
    | none => step5 l st
  else step5 l st

/-- Invalid-move block, lines 280-298. -/
def step3 (l : TLog) (st : PState) : PState × Bool :=
  if has_invalid_move l.text then
    let st := { st with termination_reason := some "Invalid move" }
    let st :=
      if invalid_by_circle l.text then
        { st with winner := some "square", circle_score := some 0, square_score := some 100 }
      else if invalid_by_square l.text then
        { st with winner := some "circle", circle_score := some 100, square_score := some 0 }
      else st
    let st :=
      match l.score_match with
      | some (c, s) => { st with circle_score := some c, square_score := some s }
      | none => st
    (st, true)
  else step4 l st

/-- Repetition block, lines 265-278. -/
def step2 (l : TLog) (st : PState) : PState × Bool :=
  if has_repetition l.text then
    let st := { st with termination_reason := some "Repetition (3-move rule)" }
    let st :=
      match l.winner_match with
      | some w => { st with winner := some w.toLower }
      | none => st
    match l.score_match with
    | some (c, s) => ({ st with circle_score := some c, square_score := some s }, true)
    | none => step3 l st
  else step3 l st

/-- Timeout block, lines 250-263, chaining into the later blocks when it does
not break. -/
def step (l : TLog) (st : PState) : PState × Bool :=
  if has_timeout l.text then
    match l.score_match with
    | some (c, s) =>
      ({ winner := some (scoreWinner c s)
         circle_score := some c
         square_score := some s
         termination_reason := none }, true)
    | none => step2 l { st with termination_reason := some "Timeout (no scores)" }
  else step2 l st

/-- The detection loop over the available logs (lines 246-326). -/
def detect_loop : List TLog → PState → PState
  | [], st => st
  | l :: rest, st =>
    let r := step l st
    if r.2 then r.1 else detect_loop rest r.1

/-- The error-pattern scan (lines 331-365): the first log with a matching
error pattern supplies the error string. -/
def error_scan : List TLog → Option String
  | [] => none
  | l :: rest =>
    match l.error_sig with
    | some e => some e
    | none => error_scan rest

/-- Embedding of `[l.strip() for l in content.split('\n') if l.strip()][-1]`. -/
def last_nonempty_line (t : String) : Option String :=
  (((t.splitOn "\n").map String.trim).filter (fun x => x ≠ "")).getLast?

/-- State of the last-resort loop, which can additionally set `error`. -/
structure LState where
  winner : Option String
  circle_score : Option Rat
  square_score : Option Rat
  termination_reason : Option String
  error : Option String
deriving DecidableEq

/-- One iteration of the last-resort loop (lines 369-395). -/
def last_resort_step (l : TLog) (st : LState) : LState :=
  if l.text.trim.length < 50 then
    { st with
      error := some "Log too short - process may have crashed"
      termination_reason := some "Error: Process crashed" }
  else if has_bot_finished l.text then
    let st := { st with termination_reason := some "Completed (check server log for details)" }
    match l.score_match with
    | some (c, s) =>
      { st with
        circle_score := some c
        square_score := some s
        winner := some (scoreWinner c s) }
    | none => st
  else
    match last_nonempty_line l.text with
    | some line =>
      { st with
        error := some ("Game did not complete. Last log: " ++ line.take 150)
        termination_reason := some "Incomplete" }
    | none =>
      { st with
        error := some "Unknown error - game did not complete"
        termination_reason := some "Error: Unknown" }

/-- The last-resort loop runs over all logs without a break. -/
def last_resort_loop : List TLog → LState → LState
  | [], st => st
  | l :: rest, st => last_resort_loop rest (last_resort_step l st)

/-- Embedding of `run_tournament.parse_game_result` (lines 228-405), over the
list of logs that exist (server log first, then player log). The final error
field is `error` when set, else the termination reason (lines 397-405). -/
def parse_game_result (logs : List TLog) : Elim.ParseResult :=
  match logs with
  | [] =>
    { winner := none, circle_score := none, square_score := none,
      error := some "No log files found" }
  | _ =>
    let st := detect_loop logs
      { winner := none, circle_score := none, square_score := none,
        termination_reason := none }
    if st.winner = none ∧ st.termination_reason = none then
      match error_scan logs with
      | some e =>
        { winner := st.winner, circle_score := st.circle_score,
          square_score := st.square_score, error := some e }
      | none =>
        let ls := last_resort_loop logs
          { winner := st.winner, circle_score := st.circle_score,
            square_score := st.square_score,
            termination_reason := st.termination_reason, error := none }
        { winner := ls.winner, circle_score := ls.circle_score,
          square_score := ls.square_score,
          error :=
            match ls.error with
            | some e => some e
            | none => ls.termination_reason }
    else
      { winner := st.winner, circle_score := st.circle_score,
        square_score := st.square_score, error := st.termination_reason }

/-- Embedding of `total_p1_score` (run_tournament.py line 853): per-board
total for player1 over the role-swapped pair, with a missing per-game score
contributing the default 0. -/
def total_p1_score (circle_g1 square_g2 : Option Rat) : Rat :=
  circle_g1.getD 0 + square_g2.getD 0

/-- Embedding of `total_p2_score` (run_tournament.py line 854). -/
def total_p2_score (square_g1 circle_g2 : Option Rat) : Rat :=
  square_g1.getD 0 + circle_g2.getD 0

/-- Environment of one group-stage `run_game` execution: server liveness
after the settle delay, the server log content visible at each half-second
connect poll (`none` when the file does not exist yet), and the watchdog
exit observations. -/
structure TGameEnv where
  server_alive_after_settle : Bool
  server_log : Nat → Option String
  server_exited : Nat → Bool

/-- Embedding of the connect marker test of line 485:
`'both players connected' in log.lower() or 'game' in log.lower() and 'started' in log.lower()`. -/
def connect_marker (l : Option String) : Bool :=
  match l with
  | none => false
  | some content =>
    let lc := content.toLower
    containsStr lc "both players connected" ||
      (containsStr lc "game" && containsStr lc "started")

/-- The connect-wait loop of lines 477-489: 30 seconds polled every
half second. -/
def both_connected (env : TGameEnv) : Bool :=
  poll_loop (fun t => connect_marker (env.server_log t)) 60 0

/-- Embedding of the control flow of `run_tournament.run_game`
(lines 407-569): launch server, settle delay, launch both players, bounded
connect wait, then always the external watchdog, teardown and parsing. The
source proceeds to the watchdog whether or not the connect marker was seen,
and contains no server liveness check before the player launches, so the
trace does not depend on the environment. -/
def run_game_actions (_env : TGameEnv) : List GAction :=
  [GAction.launchServer, GAction.settleWait, GAction.launchPlayer1,
   GAction.launchPlayer2, GAction.connectWait, GAction.startWatchdog,
   GAction.teardown, GAction.parseLogs]

end Tourn

/-! Concrete inputs used by witnesses and counterexamples. -/

/-- Seed-1 participant. -/
def pA : Participant := { seed := 1, player := "A", group := "G1", wins := 0, total_score := 0 }

/-- Seed-2 participant. -/
def pB : Participant := { seed := 2, player := "B", group := "G1", wins := 0, total_score := 0 }

/-- Seed-3 participant. -/
def pC : Participant := { seed := 3, player := "C", group := "G2", wins := 0, total_score := 0 }

/-- Seed-4 participant. -/
def pD : Participant := { seed := 4, player := "D", group := "G2", wins := 0, total_score := 0 }

/-- A drawn game with unparsed scores. -/
def drawGame : Elim.GameRes :=
  { winner := some "draw", circle_score := none, square_score := none }

/-- A game won by the circle role, scores unparsed. -/
def winCircle : Elim.GameRes :=
  { winner := some "circle", circle_score := none, square_score := none }

/-- A game won by the square role, scores unparsed. -/
def winSquare : Elim.GameRes :=
  { winner := some "square", circle_score := none, square_score := none }

/-- A match in which every stage ends tied. -/
def gTied : Elim.MatchGames :=
  { g1 := drawGame, g2 := drawGame, tb1g1 := drawGame, tb1g2 := drawGame,
    tb2g1 := drawGame, tb2g2 := drawGame }

/-- A fully tied match whose tiebreaker-battle-1 game 1 has a missing circle
score while game 2 gives the square role 5 points. -/
def gMissing : Elim.MatchGames :=
  { g1 := drawGame, g2 := drawGame
    tb1g1 := { winner := some "draw", circle_score := none, square_score := none }
    tb1g2 := { winner := some "draw", circle_score := none, square_score := some 5 }
    tb2g1 := drawGame, tb2g2 := drawGame }

/-- Identical to `gMissing` except the missing circle score is an explicit 0. -/
def gZero : Elim.MatchGames :=
  { gMissing with
    tb1g1 := { winner := some "draw", circle_score := some 0, square_score := none } }

/-- A match won twice by player1 (circle in game 1, square in game 2). -/
def gP1Sweep : Elim.MatchGames :=
  { g1 := winCircle, g2 := winSquare, tb1g1 := drawGame, tb1g2 := drawGame,
    tb2g1 := drawGame, tb2g2 := drawGame }

/-- A match won twice by player2 (square in game 1, circle in game 2). -/
def gP2Sweep : Elim.MatchGames :=
  { g1 := winSquare, g2 := winCircle, tb1g1 := drawGame, tb1g2 := drawGame,
    tb2g1 := drawGame, tb2g2 := drawGame }

/-- A server log containing only the circle invalid-move marker. -/
def invalidCircleLog : Tourn.TLog :=
  { text := "INVALID MOVE by circle", score_match := none, winner_match := none,
    error_sig := none }

/-- A server log containing only the square invalid-move marker. -/
def invalidSquareLog : Tourn.TLog :=
  { text := "INVALID MOVE by square", score_match := none, winner_match := none,
    error_sig := none }

/-- An environment whose server process is already dead after the settle
delay. -/
def deadServerEnv : GameEnv :=
  { server_alive_after_settle := false, server_exited := fun _ => true }

/-- A group-stage game environment whose server log never appears. -/
def silentEnv : Tourn.TGameEnv :=
  { server_alive_after_settle := true, server_log := fun _ => none,
    server_exited := fun _ => false }

/-- A log feed with no score line, only a winner marker. -/
def noScoreLog : Elim.LogFeed := { score_match := none, winner_match := some "Circle" }

/-- A 1-element seed list (the degenerate 2 ^ 0 bracket). -/
def soloSeed : Participant :=
  { seed := 1, player := "solo", group := "G", wins := 0, total_score := 0 }

/-! Helper lemmas. -/

/-- The resolution procedure always returns one of the two participants. -/
theorem run_match_winner_mem (p1 p2 : Participant) (g : Elim.MatchGames) :
    (Elim.run_match p1 p2 g).match_winner = p1 ∨
      (Elim.run_match p1 p2 g).match_winner = p2 := by
  unfold Elim.run_match
  by_cases c1 : Elim.p1_wins_of g.g1.winner g.g2.winner >
      Elim.p2_wins_of g.g1.winner g.g2.winner <;>
    by_cases c2 : Elim.p2_wins_of g.g1.winner g.g2.winner >
        Elim.p1_wins_of g.g1.winner g.g2.winner <;>
    by_cases c3 : Elim.p1_wins_of g.tb1g1.winner g.tb1g2.winner >
        Elim.p2_wins_of g.tb1g1.winner g.tb1g2.winner <;>
    by_cases c4 : Elim.p2_wins_of g.tb1g1.winner g.tb1g2.winner >
        Elim.p1_wins_of g.tb1g1.winner g.tb1g2.winner <;>
    by_cases c5 : Elim.p1_wins_of g.tb2g1.winner g.tb2g2.winner >
        Elim.p2_wins_of g.tb2g1.winner g.tb2g2.winner <;>
    by_cases c6 : Elim.p2_wins_of g.tb2g1.winner g.tb2g2.winner >
        Elim.p1_wins_of g.tb2g1.winner g.tb2g2.winner <;>
    by_cases c7 : p1.seed < p2.seed <;>
    simp [c1, c2, c3, c4, c5, c6, c7]

/-- The resolution procedure never plays more than 4 extra games. -/
theorem run_match_extra_games_le (p1 p2 : Participant) (g : Elim.MatchGames) :
    (Elim.run_match p1 p2 g).extra_games ≤ 4 := by
  unfold Elim.run_match
  by_cases c1 : Elim.p1_wins_of g.g1.winner g.g2.winner >
      Elim.p2_wins_of g.g1.winner g.g2.winner <;>
    by_cases c2 : Elim.p2_wins_of g.g1.winner g.g2.winner >
        Elim.p1_wins_of g.g1.winner g.g2.winner <;>
    by_cases c3 : Elim.p1_wins_of g.tb1g1.winner g.tb1g2.winner >
        Elim.p2_wins_of g.tb1g1.winner g.tb1g2.winner <;>
    by_cases c4 : Elim.p2_wins_of g.tb1g1.winner g.tb1g2.winner >
        Elim.p1_wins_of g.tb1g1.winner g.tb1g2.winner <;>
    by_cases c5 : Elim.p1_wins_of g.tb2g1.winner g.tb2g2.winner >
        Elim.p2_wins_of g.tb2g1.winner g.tb2g2.winner <;>
    by_cases c6 : Elim.p2_wins_of g.tb2g1.winner g.tb2g2.winner >
        Elim.p1_wins_of g.tb2g1.winner g.tb2g2.winner <;>
    by_cases c7 : p1.seed < p2.seed <;>
    simp [c1, c2, c3, c4, c5, c6, c7]

/-- When every stage is tied the seed fallback decides. -/
theorem run_match_seed_fallback (p1 p2 : Participant) (g : Elim.MatchGames)
    (hr : Elim.regular_tied g) (h1 : Elim.tb1_tied g) (h2 : Elim.tb2_tied g) :
    (Elim.run_match p1 p2 g).match_winner =
      if p1.seed < p2.seed then p1 else p2 := by
  unfold Elim.regular_tied at hr
  unfold Elim.tb1_tied at h1
  unfold Elim.tb2_tied at h2
  have c1 : ¬ (Elim.p1_wins_of g.g1.winner g.g2.winner >
      Elim.p2_wins_of g.g1.winner g.g2.winner) := by omega
  have c2 : ¬ (Elim.p2_wins_of g.g1.winner g.g2.winner >
      Elim.p1_wins_of g.g1.winner g.g2.winner) := by omega
  have c3 : ¬ (Elim.p1_wins_of g.tb1g1.winner g.tb1g2.winner >
      Elim.p2_wins_of g.tb1g1.winner g.tb1g2.winner) := by omega
  have c4 : ¬ (Elim.p2_wins_of g.tb1g1.winner g.tb1g2.winner >
      Elim.p1_wins_of g.tb1g1.winner g.tb1g2.winner) := by omega
  have c5 : ¬ (Elim.p1_wins_of g.tb2g1.winner g.tb2g2.winner >
      Elim.p2_wins_of g.tb2g1.winner g.tb2g2.winner) := by omega
  have c6 : ¬ (Elim.p2_wins_of g.tb2g1.winner g.tb2g2.winner >
      Elim.p1_wins_of g.tb2g1.winner g.tb2g2.winner) := by omega
  unfold Elim.run_match
  by_cases c7 : p1.seed < p2.seed <;>
    simp [c1, c2, c3, c4, c5, c6, c7]

/-- The bracket has one match per two seeds. -/
theorem create_bracket_length (seeds : List Participant) :
    (create_bracket seeds).length = seeds.length / 2 := by
  simp [create_bracket]

/-- Match i of the bracket pairs positions i and N-1-i of the seed list. -/
theorem create_bracket_getD (seeds : List Participant) (i : Nat)
    (h : i < seeds.length / 2) :
    (create_bracket seeds).getD i defaultBracketMatch =
      { match_id := i + 1
        player1 := seeds.getD i defaultParticipant
        player2 := seeds.getD (seeds.length - 1 - i) defaultParticipant } := by
  unfold create_bracket
  rw [List.getD_eq_getElem _ _ (by simpa using h)]
  simp

/-- The index pattern of the round-1 pairing enumerates 0..N-1 exactly once
when N is even. -/
theorem pairing_indices_perm (n : Nat) (hn : n % 2 = 0) :
    List.Perm ((List.range (n / 2)).flatMap (fun i => [i, n - 1 - i]))
      (List.range n) := by
  refine (List.perm_ext_iff_of_nodup ?_ (List.nodup_range n)).mpr ?_
  · rw [List.nodup_flatMap]
    constructor
    · intro i hi
      simp only [List.mem_range] at hi
      simp only [List.nodup_cons, List.mem_singleton, List.not_mem_nil,
        not_false_eq_true, List.nodup_nil, and_true]
      omega
    · rw [List.pairwise_iff_getElem]
      intro i j hi hj hij
      simp only [List.length_range] at hi hj
      simp only [List.getElem_range]
      intro x hx hx2
      simp only [List.mem_cons, List.mem_singleton, List.not_mem_nil, or_false] at hx hx2
      omega
  · intro a
    simp only [List.mem_flatMap, List.mem_range, List.mem_cons, List.mem_singleton,
      List.not_mem_nil, or_false]
    constructor
    · rintro ⟨i, hi, rfl | rfl⟩ <;> omega
    · intro ha
      by_cases h : a < n / 2
      · exact ⟨a, h, Or.inl rfl⟩
      · exact ⟨n - 1 - a, by omega, Or.inr (by omega)⟩

/-- For an even number of seeds, the participants across round-1 matches are a
permutation of the seed list. -/
theorem bracket_participants_perm (seeds : List Participant)
    (h2 : seeds.length % 2 = 0) :
    List.Perm (bracket_participants seeds) seeds := by
  have key : bracket_participants seeds =
      ((List.range (seeds.length / 2)).flatMap
          (fun i => [i, seeds.length - 1 - i])).map
        (fun i => seeds.getD i defaultParticipant) := by
    unfold bracket_participants create_bracket
    rw [List.flatMap_map, List.map_flatMap]
    rfl
  rw [key]
  have hseeds : seeds =
      (List.range seeds.length).map (fun i => seeds.getD i defaultParticipant) := by
    apply List.ext_getElem
    · simp
    · intro i him hin
      simp only [List.getElem_map, List.getElem_range]
      rw [List.getD_eq_getElem _ _ him]
  conv_rhs => rw [hseeds]
  exact List.Perm.map _ (pairing_indices_perm seeds.length h2)

/-! Claim theorems. -/

/-- C1: for every match, the resolution procedure of `run_match` (a total
function, hence terminating) plays at most 4 additional tiebreak games and
sets the match winner to one of the two participants, never to nothing; and
whenever the win counts are tied after the regular games, after tiebreaker
battle 1 and again after tiebreaker battle 2, the participant with the
numerically lower seed is returned. -/
theorem C1_match_resolution (p1 p2 : Participant) (g : Elim.MatchGames) :
    ((Elim.run_match p1 p2 g).match_winner = p1 ∨
      (Elim.run_match p1 p2 g).match_winner = p2) ∧
    (Elim.run_match p1 p2 g).extra_games ≤ 4 ∧
    (Elim.regular_tied g → Elim.tb1_tied g → Elim.tb2_tied g →
      (p1.seed < p2.seed → (Elim.run_match p1 p2 g).match_winner = p1) ∧
      (p2.seed < p1.seed → (Elim.run_match p1 p2 g).match_winner = p2)) :=
  ⟨run_match_winner_mem p1 p2 g, run_match_extra_games_le p1 p2 g,
    fun hr h1 h2 =>
      ⟨fun hs => by rw [run_match_seed_fallback p1 p2 g hr h1 h2, if_pos hs],
       fun hs => by rw [run_match_seed_fallback p1 p2 g hr h1 h2, if_neg (by omega)]⟩⟩

/-- Witness for C1 at a concrete fully tied match between seeds 1 and 2. -/
theorem C1_match_resolution_witness :
    ((Elim.run_match pA pB gTied).match_winner = pA ∨
      (Elim.run_match pA pB gTied).match_winner = pB) ∧
    (Elim.run_match pA pB gTied).extra_games ≤ 4 ∧
    (Elim.run_match pA pB gTied).match_winner = pA := by
  obtain ⟨h1, h2, h3⟩ := C1_match_resolution pA pB gTied
  exact ⟨h1, h2, (h3 (by decide) (by decide) (by decide)).1 (by decide)⟩

/-- C9: the match winner computed by `run_match` depends only on the per-game
winner outcomes and the two participants (in particular their seeds), never
on the numeric scores: matches with the same winner sequence but different
or missing scores resolve to the same winner. -/
theorem C9_winner_ignores_scores (p1 p2 : Participant) (g g' : Elim.MatchGames)
    (h : Elim.winners_of g = Elim.winners_of g') :
    (Elim.run_match p1 p2 g).match_winner =
      (Elim.run_match p1 p2 g').match_winner := by
  unfold Elim.winners_of at h
  simp only [Prod.mk.injEq] at h
  obtain ⟨h1, h2, h3, h4, h5, h6⟩ := h
  unfold Elim.run_match
  rw [h1, h2, h3, h4, h5, h6]
  by_cases c1 : Elim.p1_wins_of g'.g1.winner g'.g2.winner >
      Elim.p2_wins_of g'.g1.winner g'.g2.winner <;>
    by_cases c2 : Elim.p2_wins_of g'.g1.winner g'.g2.winner >
        Elim.p1_wins_of g'.g1.winner g'.g2.winner <;>
    by_cases c3 : Elim.p1_wins_of g'.tb1g1.winner g'.tb1g2.winner >
        Elim.p2_wins_of g'.tb1g1.winner g'.tb1g2.winner <;>
    by_cases c4 : Elim.p2_wins_of g'.tb1g1.winner g'.tb1g2.winner >
        Elim.p1_wins_of g'.tb1g1.winner g'.tb1g2.winner <;>
    by_cases c5 : Elim.p1_wins_of g'.tb2g1.winner g'.tb2g2.winner >
        Elim.p2_wins_of g'.tb2g1.winner g'.tb2g2.winner <;>
    by_cases c6 : Elim.p2_wins_of g'.tb2g1.winner g'.tb2g2.winner >
        Elim.p1_wins_of g'.tb2g1.winner g'.tb2g2.winner <;>
    by_cases c7 : p1.seed < p2.seed <;>
    simp [c1, c2, c3, c4, c5, c6, c7]

/-- Witness for C9: a tied match with a missing tiebreak score and the same
match with that score as an explicit 0 (different aggregate inputs, same
winner sequence) resolve identically. -/
theorem C9_winner_ignores_scores_witness :
    (Elim.run_match pA pB gMissing).match_winner =
      (Elim.run_match pA pB gZero).match_winner :=
  C9_winner_ignores_scores pA pB gMissing gZero (by decide)

/-- C3: a parallel round reports winners and results in input-match order
(position i of the output corresponds to position i of the input), the next
round pairs consecutive winners in that order, and for four seeded
participants with round-1 matches (S1,S4), (S2,S3) won by S1 and S3, round 2
is the single match (S1,S3), whose winner (the champion) is S1 or S3. -/
theorem C3_round_order_and_scenario (s1 s2 s3 s4 : Participant)
    (g1 g2 g3 : Elim.MatchGames)
    (h1 : (Elim.run_match s1 s4 g1).match_winner = s1)
    (h2 : (Elim.run_match s2 s3 g2).match_winner = s3) :
    (∀ (ms : List ((Participant × Participant) × Elim.MatchGames)) (i : Nat),
      (run_round_parallel ms).1[i]? =
        (ms[i]?).map (fun x => (Elim.run_match x.1.1 x.1.2 x.2).match_winner)) ∧
    create_bracket [s1, s2, s3, s4] =
      [{ match_id := 1, player1 := s1, player2 := s4 },
       { match_id := 2, player1 := s2, player2 := s3 }] ∧
    (run_round_parallel [((s1, s4), g1), ((s2, s3), g2)]).1 = [s1, s3] ∧
    advance_pairs (run_round_parallel [((s1, s4), g1), ((s2, s3), g2)]).1 =
      [(s1, s3)] ∧
    ((Elim.run_match s1 s3 g3).match_winner = s1 ∨
      (Elim.run_match s1 s3 g3).match_winner = s3) := by
  have e : (run_round_parallel [((s1, s4), g1), ((s2, s3), g2)]).1 = [s1, s3] := by
    simp [run_round_parallel, h1, h2]
  refine ⟨?_, ?_, e, ?_, run_match_winner_mem s1 s3 g3⟩
  · intro ms i
    simp only [run_round_parallel, List.getElem?_map]
    cases ms[i]? <;> rfl
  · simp [create_bracket, List.range_succ]
  · rw [e]
    rfl

/-- Witness for C3 at four concrete seeded participants with concrete game
outcomes in which seed 1 and seed 3 win their round-1 matches. -/
theorem C3_round_order_and_scenario_witness :
    (run_round_parallel [((pA, pD), gP1Sweep), ((pB, pC), gP2Sweep)]).1 = [pA, pC] ∧
    advance_pairs (run_round_parallel [((pA, pD), gP1Sweep), ((pB, pC), gP2Sweep)]).1 =
      [(pA, pC)] ∧
    ((Elim.run_match pA pC gTied).match_winner = pA ∨
      (Elim.run_match pA pC gTied).match_winner = pC) := by
  obtain ⟨_, _, h3, h4, h5⟩ :=
    C3_round_order_and_scenario pA pB pC pD gP1Sweep gP2Sweep gTied
      (by decide) (by decide)
  exact ⟨h3, h4, h5⟩

/-- C2 counterexample: for the seed list of N = 2 ^ 0 = 1 participant,
`create_bracket` produces no matches, so the multiset of participants across
round-1 matches does not equal the input seed set used once each. -/
theorem C2_counterexample :
    [soloSeed].length = 2 ^ 0 ∧
    create_bracket [soloSeed] = [] ∧
    ¬ List.Perm (bracket_participants [soloSeed]) [soloSeed] := by
  refine ⟨rfl, rfl, ?_⟩
  intro hcontra
  have hlen := hcontra.length_eq
  simp [bracket_participants, create_bracket] at hlen

/-- C2 (amended): for every ordered seed list of N = 2 ^ k participants with
k ≥ 1, `create_bracket` produces exactly N/2 matches, match i (1-indexed)
pairs seed i against seed N+1-i so its two seeds sum to N+1, and the multiset
of participants across the round-1 matches equals the input seed list with
each participant used exactly once. -/
theorem C2_bracket_pairing (seeds : List Participant) (k : Nat)
    (hN : seeds.length = 2 ^ k) (hk : 0 < k)
    (hseed : ∀ j, j < seeds.length →
      (seeds.getD j defaultParticipant).seed = j + 1) :
    (create_bracket seeds).length = seeds.length / 2 ∧
    (∀ i, i < seeds.length / 2 →
      (create_bracket seeds).getD i defaultBracketMatch =
        { match_id := i + 1
          player1 := seeds.getD i defaultParticipant
          player2 := seeds.getD (seeds.length - 1 - i) defaultParticipant }) ∧
    (∀ i, i < seeds.length / 2 →
      ((create_bracket seeds).getD i defaultBracketMatch).player1.seed +
        ((create_bracket seeds).getD i defaultBracketMatch).player2.seed =
        seeds.length + 1) ∧
    List.Perm (bracket_participants seeds) seeds := by
  have heven : seeds.length % 2 = 0 := by
    have h2 : 2 ^ k = 2 * 2 ^ (k - 1) := by
      conv_lhs => rw [show k = 1 + (k - 1) by omega]
      rw [pow_add, pow_one]
    omega
  refine ⟨create_bracket_length seeds, ?_, ?_, bracket_participants_perm seeds heven⟩
  · intro i hi
    exact create_bracket_getD seeds i hi
  · intro i hi
    rw [create_bracket_getD seeds i hi]
    show (seeds.getD i defaultParticipant).seed +
        (seeds.getD (seeds.length - 1 - i) defaultParticipant).seed =
      seeds.length + 1
    have e1 := hseed i (by omega)
    have e2 := hseed (seeds.length - 1 - i) (by omega)
    omega

/-- Witness for the amended C2 at the concrete seed list of 2 ^ 1
participants with seeds 1 and 2. -/
theorem C2_bracket_pairing_witness :
    (create_bracket [pA, pB]).length = [pA, pB].length / 2 ∧
    List.Perm (bracket_participants [pA, pB]) [pA, pB] := by
  obtain ⟨h1, _, _, h4⟩ :=
    C2_bracket_pairing [pA, pB] 1 (by decide) (by decide) (by decide)
  exact ⟨h1, h4⟩

/-- The elimination parse loop either leaves both scores unset, or sets both
from one score line and derives the winner from their comparison. -/
theorem parse_loop_scores (logs : List Elim.LogFeed) (w : Option String) :
    ((Elim.parse_loop logs w).2.1 = none ∧ (Elim.parse_loop logs w).2.2 = none) ∨
    (∃ c s : Rat,
      Elim.parse_loop logs w = (some (scoreWinner c s), some c, some s)) := by
  induction logs generalizing w with
  | nil => exact Or.inl ⟨rfl, rfl⟩
  | cons l rest ih =>
    unfold Elim.parse_loop
    cases hsm : l.score_match with
    | some p =>
      obtain ⟨c, s⟩ := p
      exact Or.inr ⟨c, s, rfl⟩
    | none =>
      cases hwm : l.winner_match with
      | some wm => exact ih _
      | none => exact ih w

/-- When no log has a score line the parse loop never invents a score. -/
theorem parse_loop_no_scores (logs : List Elim.LogFeed) (w : Option String)
    (h : ∀ l ∈ logs, l.score_match = none) :
    (Elim.parse_loop logs w).2.1 = none ∧ (Elim.parse_loop logs w).2.2 = none := by
  induction logs generalizing w with
  | nil => exact ⟨rfl, rfl⟩
  | cons l rest ih =>
    unfold Elim.parse_loop
    rw [h l (by simp)]
    cases hwm : l.winner_match with
    | some wm => exact ih _ (fun x hx => h x (by simp [hx]))
    | none => exact ih w (fun x hx => h x (by simp [hx]))

/-- C10: the elimination `parse_game_result` returns the two role scores
together or not at all: either both scores come from a single score line and
the winner is the role with the strictly higher score (draw on equality), or
both scores are absent; it never returns exactly one numeric score. -/
theorem C10_scores_both_or_none (logs : List Elim.LogFeed) :
    ((Elim.parse_game_result logs).circle_score = none ∧
      (Elim.parse_game_result logs).square_score = none) ∨
    (∃ c s : Rat,
      (Elim.parse_game_result logs).circle_score = some c ∧
      (Elim.parse_game_result logs).square_score = some s ∧
      (Elim.parse_game_result logs).winner =
        some (if c > s then "circle" else if s > c then "square" else "draw")) := by
  unfold Elim.parse_game_result
  rcases parse_loop_scores logs none with ⟨h1, h2⟩ | ⟨c, s, h⟩
  · exact Or.inl ⟨by simpa using h1, by simpa using h2⟩
  · refine Or.inr ⟨c, s, ?_, ?_, ?_⟩ <;> simp [h, scoreWinner]

/-- C4 counterexample: a tiebreak game score that could not be parsed does
not propagate as unknown into the aggregates: the whole match record of a
tied match with a missing tiebreak-game score equals the record of the same
match with that score replaced by an explicit 0, the tiebreak-stage aggregate
coerces the missing score to 0 (yielding 5, not unknown), and the per-board
total of run_tournament.py line 853 likewise cannot distinguish a missing
game score from 0. -/
theorem C4_counterexample :
    gMissing.tb1g1.circle_score = none ∧
    gZero.tb1g1.circle_score = some 0 ∧
    gMissing ≠ gZero ∧
    Elim.run_match pA pB gMissing = Elim.run_match pA pB gZero ∧
    (Elim.run_match pA pB gMissing).tb1_p1_score = some 5 ∧
    Tourn.total_p1_score none (some 5) = Tourn.total_p1_score (some 0) (some 5) := by
  refine ⟨rfl, rfl, by decide, ?_, ?_, ?_⟩
  · simp [Elim.run_match, gMissing, gZero, drawGame, pA, pB,
      Elim.p1_wins_of, Elim.p2_wins_of]
  · simp [Elim.run_match, gMissing, drawGame, pA, pB,
      Elim.p1_wins_of, Elim.p2_wins_of]
  · simp [Tourn.total_p1_score]

/-- C4 (amended): per-game scores that cannot be parsed stay absent in the
parse result and are recorded as an empty cell, distinguishable from a 0
score; but the aggregated values substitute 0 for a missing per-game score:
the per-board totals (run_tournament.py lines 853-854) treat an absent
operand exactly as an explicit 0. -/
theorem C4_absence_propagation (s : Option Rat) (v : Rat)
    (logs : List Elim.LogFeed) (hlogs : ∀ l ∈ logs, l.score_match = none) :
    (Elim.parse_game_result logs).circle_score = none ∧
    (Elim.parse_game_result logs).square_score = none ∧
    scoreCell none = CsvCell.empty ∧
    scoreCell none ≠ scoreCell (some 0) ∧
    scoreCell (some v) = CsvCell.num v ∧
    Tourn.total_p1_score none s = Tourn.total_p1_score (some 0) s ∧
    Tourn.total_p2_score none s = Tourn.total_p2_score (some 0) s := by
  obtain ⟨h1, h2⟩ := parse_loop_no_scores logs none hlogs
  unfold Elim.parse_game_result
  refine ⟨by simpa using h1, by simpa using h2, rfl, by decide, rfl, rfl, rfl⟩

/-- Witness for the amended C4 at a concrete scoreless log and value 5. -/
theorem C4_absence_propagation_witness :
    (Elim.parse_game_result [noScoreLog]).circle_score = none ∧
    (Elim.parse_game_result [noScoreLog]).square_score = none ∧
    scoreCell none ≠ scoreCell (some 0) ∧
    Tourn.total_p1_score none (some 5) = Tourn.total_p1_score (some 0) (some 5) := by
  obtain ⟨h1, h2, _, h4, _, h6, _⟩ :=
    C4_absence_propagation (some 5) 1 [noScoreLog] (by decide)
  exact ⟨h1, h2, h4, h6⟩

/-- C6 counterexample: the full port schedule of a 32-seed run hands the base
port out again in every round, so ports are reused for later matches within
the same run (the list of all handed-out ports is not duplicate-free). -/
theorem C6_counterexample :
    ¬ tournament_round_ports.flatten.Nodup ∧
    BASE_PORT ∈ round_ports 16 ∧
    BASE_PORT ∈ round_ports 8 := by decide

/-- Ports allocated by the counter are base, base+1, ... -/
theorem alloc_ports_eq (base n : Nat) :
    alloc_ports base n = (List.range n).map (fun i => base + i) := by
  induction n generalizing base with
  | zero => rfl
  | succ n ih =>
    rw [show alloc_ports base (n + 1) = base :: alloc_ports (base + 1) n from rfl, ih,
      List.range_succ_eq_map, List.map_cons, List.map_map]
    congr 1
    apply List.map_congr_left
    intro a _
    simp [Function.comp]
    omega

/-- The successive natural numbers are pairwise increasing. -/
theorem pairwise_lt_range_aux (m : Nat) :
    List.Pairwise (· < ·) (List.range m) := by
  rw [List.pairwise_iff_getElem]
  intro i j hi hj hij
  simpa using hij

/-- C6 (amended): within one round, the ports handed to the concurrently
scheduled matches are pairwise distinct and strictly increasing from the
configured base port, and the `get_next_port` counter likewise hands out
strictly increasing ports; but each round restarts its numbering at the base
port, so the base port is reused by later rounds of the same run. -/
theorem C6_ports_within_round (m base n : Nat) :
    List.Pairwise (· < ·) (round_ports m) ∧
    (∀ p ∈ round_ports m, BASE_PORT ≤ p) ∧
    (0 < m → (round_ports m).head? = some BASE_PORT) ∧
    alloc_ports base n = (List.range n).map (fun i => base + i) ∧
    List.Pairwise (· < ·) (alloc_ports base n) ∧
    BASE_PORT ∈ round_ports 16 ∧ BASE_PORT ∈ round_ports 8 := by
  refine ⟨?_, ?_, ?_, alloc_ports_eq base n, ?_, by decide, by decide⟩
  · unfold round_ports
    rw [List.pairwise_map]
    exact (pairwise_lt_range_aux m).imp (fun hab => by omega)
  · intro p hp
    unfold round_ports at hp
    simp only [List.mem_map, List.mem_range] at hp
    obtain ⟨k, _, rfl⟩ := hp
    omega
  · intro hm
    obtain ⟨m, rfl⟩ : ∃ m2, m = m2 + 1 := ⟨m - 1, by omega⟩
    unfold round_ports
    rw [List.range_succ_eq_map]
    rfl
  · rw [alloc_ports_eq base n, List.pairwise_map]
    exact (pairwise_lt_range_aux n).imp (fun hab => by omega)

/-- Witness for the amended C6 at the round-of-32 port block. -/
theorem C6_ports_within_round_witness :
    List.Pairwise (· < ·) (round_ports 16) ∧
    (round_ports 16).head? = some BASE_PORT ∧
    List.Pairwise (· < ·) (alloc_ports BASE_PORT 16) := by
  obtain ⟨h1, _, h3, _, h5, _, _⟩ := C6_ports_within_round 16 BASE_PORT 16
  exact ⟨h1, h3 (by decide), h5⟩

/-- C5 counterexample: in the environment whose server process has already
exited after the settle delay, the embedded `run_game` still launches both
player processes and never takes a `ServerStartFailure` transition, refuting
the claim that the orchestrator confirms server liveness and skips the player
launches. -/
theorem C5_counterexample :
    deadServerEnv.server_alive_after_settle = false ∧
    GAction.launchPlayer1 ∈ Elim.run_game_actions deadServerEnv ∧
    GAction.launchPlayer2 ∈ Elim.run_game_actions deadServerEnv ∧
    GAction.serverStartFailure ∉ Elim.run_game_actions deadServerEnv := by
  refine ⟨rfl, ?_, ?_, ?_⟩ <;> simp [Elim.run_game_actions]

/-- C5 (amended): both `run_game` implementations launch the server, wait the
fixed settle delay and then launch both players unconditionally: the action
trace is the same in every environment (in particular whether or not the
server process is still alive), the player launches always occur, and no
`ServerStartFailure` transition exists. -/
theorem C5_players_launched_unconditionally (e1 e2 : GameEnv)
    (e3 e4 : Tourn.TGameEnv) :
    Elim.run_game_actions e1 = Elim.run_game_actions e2 ∧
    GAction.launchPlayer1 ∈ Elim.run_game_actions e1 ∧
    GAction.launchPlayer2 ∈ Elim.run_game_actions e1 ∧
    GAction.serverStartFailure ∉ Elim.run_game_actions e1 ∧
    Tourn.run_game_actions e3 = Tourn.run_game_actions e4 ∧
    GAction.launchPlayer1 ∈ Tourn.run_game_actions e3 ∧
    GAction.launchPlayer2 ∈ Tourn.run_game_actions e3 ∧
    GAction.serverStartFailure ∉ Tourn.run_game_actions e3 := by
  refine ⟨rfl, ?_, ?_, ?_, rfl, ?_, ?_, ?_⟩ <;>
    simp [Elim.run_game_actions, Tourn.run_game_actions]

/-- A bounded poll loop whose condition never fires returns false. -/
theorem poll_loop_eq_false (cond : Nat → Bool) (h : ∀ t, cond t = false) :
    ∀ fuel start, poll_loop cond fuel start = false := by
  intro fuel
  induction fuel with
  | zero => intro start; rfl
  | succ n ih =>
    intro start
    unfold poll_loop
    rw [h start]
    simpa using ih (start + 1)

/-- C7: when the connect marker is never observed within the bounded connect
wait, the game is not aborted: the connect wait reports false, yet the trace
is the same as in any other environment and still contains the watchdog,
teardown and parse phases, with no abort transition. -/
theorem C7_connect_timeout_not_fatal (env env2 : Tourn.TGameEnv)
    (h : ∀ t, Tourn.connect_marker (env.server_log t) = false) :
    Tourn.both_connected env = false ∧
    Tourn.run_game_actions env = Tourn.run_game_actions env2 ∧
    GAction.startWatchdog ∈ Tourn.run_game_actions env ∧
    GAction.teardown ∈ Tourn.run_game_actions env ∧
    GAction.parseLogs ∈ Tourn.run_game_actions env ∧
    GAction.abortGame ∉ Tourn.run_game_actions env := by
  refine ⟨?_, rfl, ?_, ?_, ?_, ?_⟩
  · unfold Tourn.both_connected
    exact poll_loop_eq_false _ h 60 0
  all_goals simp [Tourn.run_game_actions]

/-- Witness for C7 at the environment whose server log never appears. -/
theorem C7_connect_timeout_not_fatal_witness :
    Tourn.both_connected silentEnv = false ∧
    GAction.startWatchdog ∈ Tourn.run_game_actions silentEnv ∧
    GAction.abortGame ∉ Tourn.run_game_actions silentEnv := by
  obtain ⟨h1, _, h3, _, _, h6⟩ :=
    C7_connect_timeout_not_fatal silentEnv silentEnv (fun _ => rfl)
  exact ⟨h1, h3, h6⟩

/-- A log containing the circle invalid-move marker contains the generic
invalid-move marker. -/
theorem invalid_by_circle_has (t : String)
    (h : Tourn.invalid_by_circle t = true) : Tourn.has_invalid_move t = true := by
  unfold Tourn.invalid_by_circle containsStr at h
  have h1 : ("INVALID MOVE by circle".toList : List Char) <:+: t.toList :=
    of_decide_eq_true h
  have h2 : ("INVALID MOVE".toList : List Char) <+:
      "INVALID MOVE by circle".toList := by decide
  have h3 : ("INVALID MOVE".toList : List Char) <:+: t.toList :=
    List.IsInfix.trans (List.IsPrefix.isInfix h2) h1
  unfold Tourn.has_invalid_move containsStr
  rw [Bool.or_eq_true]
  exact Or.inl (decide_eq_true h3)

/-- A log containing the square invalid-move marker contains the generic
invalid-move marker. -/
theorem invalid_by_square_has (t : String)
    (h : Tourn.invalid_by_square t = true) : Tourn.has_invalid_move t = true := by
  unfold Tourn.invalid_by_square containsStr at h
  have h1 : ("INVALID MOVE by square".toList : List Char) <:+: t.toList :=
    of_decide_eq_true h
  have h2 : ("INVALID MOVE".toList : List Char) <+:
      "INVALID MOVE by square".toList := by decide
  have h3 : ("INVALID MOVE".toList : List Char) <:+: t.toList :=
    List.IsInfix.trans (List.IsPrefix.isInfix h2) h1
  unfold Tourn.has_invalid_move containsStr
  rw [Bool.or_eq_true]
  exact Or.inl (decide_eq_true h3)

/-- The invalid-move block overwrites the state with the circle penalty
result, whatever the incoming state. -/
theorem step3_invalid_circle (l : Tourn.TLog) (st : Tourn.PState)
    (hc : Tourn.invalid_by_circle l.text = true) (hs : l.score_match = none) :
    Tourn.step3 l st =
      ({ winner := some "square", circle_score := some 0, square_score := some 100,
         termination_reason := some "Invalid move" }, true) := by
  unfold Tourn.step3
  rw [invalid_by_circle_has l.text hc, hc, hs]
  simp

/-- The invalid-move block overwrites the state with the square penalty
result, whatever the incoming state, when only the square marker appears. -/
theorem step3_invalid_square (l : Tourn.TLog) (st : Tourn.PState)
    (hc : Tourn.invalid_by_square l.text = true)
    (hcc : Tourn.invalid_by_circle l.text = false) (hs : l.score_match = none) :
    Tourn.step3 l st =
      ({ winner := some "circle", circle_score := some 100, square_score := some 0,
         termination_reason := some "Invalid move" }, true) := by
  unfold Tourn.step3
  rw [invalid_by_square_has l.text hc, hc, hcc, hs]
  simp

/-- When the invalid-move block decides the outcome regardless of state, the
preceding timeout and repetition blocks cannot change the result of one
detection step on a scoreless log. -/
theorem step_reaches_step3 (l : Tourn.TLog) (st : Tourn.PState)
    (hs : l.score_match = none) (res : Tourn.PState × Bool)
    (h3 : ∀ st2, Tourn.step3 l st2 = res) : Tourn.step l st = res := by
  unfold Tourn.step Tourn.step2
  cases hTO : Tourn.has_timeout l.text <;>
    cases hRep : Tourn.has_repetition l.text <;>
    cases hwm : l.winner_match <;>
    simp [hs, hTO, hRep, hwm, h3]

/-- C8: on a log containing the marker INVALID MOVE by circle and no
final-score line, `parse_game_result` returns winner square with the fixed
penalty scores circle 0 and square 100 and reason Invalid move; symmetrically
a log containing only the square marker yields winner circle with scores
circle 100 and square 0. -/
theorem C8_invalid_move_penalty (l l2 : Tourn.TLog)
    (h1 : Tourn.invalid_by_circle l.text = true) (h2 : l.score_match = none)
    (h3 : Tourn.invalid_by_square l2.text = true)
    (h4 : Tourn.invalid_by_circle l2.text = false) (h5 : l2.score_match = none) :
    Tourn.parse_game_result [l] =
      { winner := some "square", circle_score := some 0, square_score := some 100,
        error := some "Invalid move" } ∧
    Tourn.parse_game_result [l2] =
      { winner := some "circle", circle_score := some 100, square_score := some 0,
        error := some "Invalid move" } := by
  constructor
  · have hstep := step_reaches_step3 l
      { winner := none, circle_score := none, square_score := none,
        termination_reason := none } h2 _
      (fun st2 => step3_invalid_circle l st2 h1 h2)
    simp [Tourn.parse_game_result, Tourn.detect_loop, hstep]
  · have hstep := step_reaches_step3 l2
      { winner := none, circle_score := none, square_score := none,
        termination_reason := none } h5 _
      (fun st2 => step3_invalid_square l2 st2 h3 h4 h5)
    simp [Tourn.parse_game_result, Tourn.detect_loop, hstep]

/-- Witness for C8 at two concrete one-marker logs. -/
theorem C8_invalid_move_penalty_witness :
    Tourn.parse_game_result [invalidCircleLog] =
      { winner := some "square", circle_score := some 0, square_score := some 100,
        error := some "Invalid move" } ∧
    Tourn.parse_game_result [invalidSquareLog] =
      { winner := some "circle", circle_score := some 100, square_score := some 0,
        error := some "Invalid move" } :=
  C8_invalid_move_penalty invalidCircleLog invalidSquareLog
    (by decide) rfl (by decide) (by decide) rfl

end Spec2Proof
